import Mathlib

/-!
Shallow embedding of the cookmate backend (`src/app.ts`, the translation
module, and the store schema in `supabase/schema.sql`).

The relational store is modelled as lists of rows; `maybeSingle`/`single`
lookups become `List.find?`, `update ... eq` becomes a guarded `List.map`,
`delete ... eq` a `List.filter`, and `insert` an append of a row whose
store-generated id / creation timestamp are passed in as parameters.
Store-side write failures (the only failures the handlers branch on) are
supplied as an explicit `DbWrite` oracle; the external translation service
is supplied as an oracle function from prompt to optional response.
-/

namespace Cookmate

/-! ### JS string helpers -/

/-- Characters treated as whitespace by JS `String.prototype.trim`
(the cases relevant here). -/
def jsWhitespace (c : Char) : Bool :=
  c == ' ' || c == '\t' || c == '\n' || c == '\r'

/-- Model of JS `String.prototype.trim`: drop whitespace at both ends. -/
def jsTrim (s : String) : String :=
  ⟨((s.data.dropWhile jsWhitespace).reverse.dropWhile jsWhitespace).reverse⟩

/-- `needle` occurs at the head of the second list. -/
def matchesAt : List Char → List Char → Bool
  | [], _ => true
  | _ :: _, [] => false
  | a :: as, b :: bs => a == b && matchesAt as bs

/-- `needle` occurs somewhere in the haystack. -/
def hasSub (needle : List Char) : List Char → Bool
  | [] => matchesAt needle []
  | b :: bs => matchesAt needle (b :: bs) || hasSub needle bs

/-- Model of JS `s.includes(sub)`. -/
def jsIncludes (s sub : String) : Bool :=
  hasSub sub.data s.data

/-- Model of the JS idiom `s || null` on an optional string: both `undefined`
and the empty string are falsy and collapse to `null`. -/
def strOrNull (o : Option String) : Option String :=
  match o with
  | some s => if s.isEmpty then none else some s
  | none => none

/-- Model of the JS idiom `n || null` on an optional number: `undefined` and
`0` are falsy and collapse to `null`. -/
def natOrNull (o : Option Nat) : Option Nat :=
  match o with
  | some n => if n == 0 then none else some n
  | none => none

/-- Model of the JS idiom `n || null` on an optional (possibly negative)
number: `undefined` and `0` are falsy and collapse to `null`. -/
def intOrNull (o : Option Int) : Option Int :=
  match o with
  | some n => if n == 0 then none else some n
  | none => none

/-! ### Data model (tables of `supabase/schema.sql`) -/

inductive Role
  | RESIDENT
  | WORKER
  deriving DecidableEq

inductive Cuisine
  | NORTH
  | SOUTH
  | BOTH
  deriving DecidableEq

inductive WorkerType
  | COOK
  | MAID
  | BOTH
  deriving DecidableEq

inductive NeedType
  | COOK
  | MAID
  | BOTH
  deriving DecidableEq

inductive Urgency
  | LOW
  | MEDIUM
  | HIGH
  deriving DecidableEq

/-- A row of `users`. `role` is `Option` because the handlers defensively
check `!existingUser.role` before trusting it. Ids and auth ids are
abstracted as `Nat`. -/
structure User where
  id : Nat
  auth_id : Nat
  role : Option Role
  deriving DecidableEq

/-- A row of `profiles`. -/
structure Profile where
  id : Nat
  user_id : Nat
  name : String
  phone : String
  block : Option String
  flat_no : Option String
  age : Option Nat
  verified : Bool
  deriving DecidableEq

/-- A row of `worker_profiles` (rating columns omitted: no handler in
`app.ts` reads or writes them). -/
structure WorkerProfile where
  id : Nat
  user_id : Nat
  worker_type : WorkerType
  cuisine : Option Cuisine
  experience_yrs : Nat
  charges : Nat
  long_term_offer : Option String
  time_slots : Option String
  deriving DecidableEq

/-- A row of `service_posts`; `created_at` is an abstract timestamp. -/
structure ServicePost where
  id : Nat
  worker_id : Nat
  title : String
  cuisine : Option Cuisine
  price : Nat
  service_area : Option String
  available_timing : Option String
  description : Option String
  time_slots : Option String
  is_active : Bool
  created_at : Nat
  deriving DecidableEq

/-- A row of `requirements`. `preferred_price` is `Int` so that the zod
check `z.number().min(0)` is a real constraint. -/
structure Requirement where
  id : Nat
  owner_id : Nat
  need_type : NeedType
  details : Option String
  preferred_timing : Option String
  preferred_price : Option Int
  block : Option String
  flat_no : Option String
  urgency : Urgency
  is_open : Bool
  created_at : Nat
  deriving DecidableEq

/-- The persistent store: one list of rows per table the handlers touch. -/
structure Store where
  users : List User
  profiles : List Profile
  worker_profiles : List WorkerProfile
  service_posts : List ServicePost
  requirements : List Requirement
  deriving DecidableEq

/-- `from('users').select(...).eq('auth_id', authId).maybeSingle()`. -/
def findUserByAuth (st : Store) (authId : Nat) : Option User :=
  st.users.find? (fun u => u.auth_id == authId)

/-- `from('profiles').select(...).eq('user_id', userId).maybeSingle()`. -/
def findProfileByUser (st : Store) (userId : Nat) : Option Profile :=
  st.profiles.find? (fun p => p.user_id == userId)

/-- `from('worker_profiles').select(...).eq('user_id', userId).maybeSingle()`. -/
def findWorkerProfileByUser (st : Store) (userId : Nat) : Option WorkerProfile :=
  st.worker_profiles.find? (fun wp => wp.user_id == userId)

/-- A store-side write error as surfaced to the handlers (`code`, `message`). -/
structure DbError where
  code : String
  message : String
  deriving DecidableEq

/-- Outcome of a store write, supplied as an oracle since the store is an
external collaborator. -/
inductive DbWrite
  | ok
  | err (e : DbError)
  deriving DecidableEq

/-! ### POST /select-role -/

/-- The `POST /select-role` handler after validation: look up the caller's
`users` row by `auth_id`; insert a fresh row with the selected role when
absent, otherwise update the row's role in place. Returns the new store and
the `{userId, role}` response payload. `freshId` is the id the store would
generate for an inserted row. -/
def selectRole (st : Store) (authId : Nat) (role : Role) (freshId : Nat) :
    Store × Nat × Role :=
  match findUserByAuth st authId with
  | none =>
      let u : User := { id := freshId, auth_id := authId, role := some role }
      ({ st with users := st.users ++ [u] }, freshId, role)
  | some u =>
      ({ st with users := st.users.map (fun v =>
          if v.auth_id == authId then { v with role := some role } else v) },
        u.id, role)

theorem selectRole_filter_map_update (a : Nat) (role : Role) :
    ∀ (l : List User), l.Pairwise (fun x y => x.auth_id ≠ y.auth_id) →
      ∀ (u : User), l.find? (fun v => v.auth_id == a) = some u →
        (l.map (fun v => if v.auth_id == a then { v with role := some role } else v)).filter
            (fun v => v.auth_id == a) = [{ u with role := some role }] := by
  intro l
  induction l with
  | nil => intro _ u h; simp at h
  | cons x xs ih =>
      intro hp u hf
      rcases List.pairwise_cons.mp hp with ⟨hx, hxs⟩
      by_cases hxa : x.auth_id = a
      · rw [List.find?_cons_of_pos _ (by simpa using hxa)] at hf
        injection hf with hf
        subst hf
        have htail : ∀ v ∈ xs, v.auth_id ≠ a := by
          intro v hv
          have := hx v hv
          omega
        simp only [List.map_cons, List.filter_cons]
        simp [hxa]
        intro b hb
        have hne := htail b hb
        simp [hne]
      · rw [List.find?_cons_of_neg _ (by simpa using hxa)] at hf
        have hrec := ih hxs u hf
        simp only [List.map_cons, List.filter_cons]
        have hcond : (x.auth_id == a) = false := by simpa using hxa
        simp only [hcond, Bool.false_eq_true, if_neg, ite_false]
        simpa using hrec

/-- C5 — `POST /select-role` upserts the caller's single `users` row: with no
existing row it appends exactly one row holding the selected role and answers
with its id; with an existing row it overwrites that row's role in place
(same list length, all other rows untouched) and answers with that row's id.
In both cases the rows carrying the caller's `auth_id` afterwards are exactly
the one row with the selected role. -/
theorem selectRole_upsert (st : Store) (authId freshId : Nat) (role : Role)
    (hdistinct : st.users.Pairwise (fun x y => x.auth_id ≠ y.auth_id)) :
    ((selectRole st authId role freshId).2.2 = role) ∧
    (findUserByAuth st authId = none →
      (selectRole st authId role freshId).1.users =
        st.users ++ [{ id := freshId, auth_id := authId, role := some role }] ∧
      (selectRole st authId role freshId).2.1 = freshId ∧
      ((selectRole st authId role freshId).1.users.filter
          (fun v => v.auth_id == authId)) =
        [{ id := freshId, auth_id := authId, role := some role }]) ∧
    (∀ u, findUserByAuth st authId = some u →
      (selectRole st authId role freshId).1.users.length = st.users.length ∧
      (selectRole st authId role freshId).2.1 = u.id ∧
      (∀ v ∈ st.users, v.auth_id ≠ authId →
        v ∈ (selectRole st authId role freshId).1.users) ∧
      ((selectRole st authId role freshId).1.users.filter
          (fun v => v.auth_id == authId)) = [{ u with role := some role }]) := by
  refine ⟨?_, ?_, ?_⟩
  · unfold selectRole
    cases h : findUserByAuth st authId <;> simp
  · intro hnone
    unfold selectRole
    rw [hnone]
    refine ⟨rfl, rfl, ?_⟩
    simp only [List.filter_append]
    have h1 : st.users.filter (fun v => v.auth_id == authId) = [] := by
      rw [List.filter_eq_nil_iff]
      intro v hv
      have := List.find?_eq_none.mp hnone v hv
      simpa using this
    simp [h1]
  · intro u hu
    unfold selectRole
    rw [hu]
    refine ⟨by simp, rfl, ?_, ?_⟩
    · intro v hv hne
      simp only [List.mem_map]
      exact ⟨v, hv, by simp [hne]⟩
    · exact selectRole_filter_map_update authId role st.users hdistinct u hu

/-- Concrete one-user store used by the C5 witness. -/
def stC5 : Store :=
  { users := [{ id := 1, auth_id := 100, role := some Role.RESIDENT }],
    profiles := [], worker_profiles := [], service_posts := [],
    requirements := [] }

/-- Witness for C5 on a concrete store: an existing user re-selects a role
and the single row is overwritten in place. -/
theorem selectRole_upsert_witness :
    (stC5.users.Pairwise (fun x y => x.auth_id ≠ y.auth_id)) ∧
    (∀ u, findUserByAuth stC5 100 = some u →
      (selectRole stC5 100 Role.WORKER 5).1.users.length = stC5.users.length ∧
      (selectRole stC5 100 Role.WORKER 5).2.1 = u.id ∧
      (∀ v ∈ stC5.users, v.auth_id ≠ 100 →
        v ∈ (selectRole stC5 100 Role.WORKER 5).1.users) ∧
      ((selectRole stC5 100 Role.WORKER 5).1.users.filter
          (fun v => v.auth_id == 100)) = [{ u with role := some Role.WORKER }]) := by
  constructor
  · decide
  · exact (selectRole_upsert stC5 100 5 Role.WORKER (by decide)).2.2

/-! ### POST /profile -/

/-- Request body of `POST /profile` (camelCase fields, as in the zod schema). -/
structure ProfileBody where
  name : String
  phone : String
  block : Option String
  flatNo : Option String
  age : Option Nat
  deriving DecidableEq

/-- The zod `ProfileBody` schema: `name` nonempty, `phone` at least 10
characters, `age ≥ 1` when present. -/
def ProfileBody.valid (b : ProfileBody) : Bool :=
  decide (1 ≤ b.name.length) && decide (10 ≤ b.phone.length) &&
    (match b.age with
     | some a => decide (1 ≤ a)
     | none => true)

/-- Responses of the `POST /profile` handler. -/
inductive ProfileResult
  | ok (p : Profile)
  | selectRoleFirst
  | phoneInUse
  | profileExists
  | saveFailed (msg : String)
  | validationFailed
  deriving DecidableEq

/-- HTTP status of each `POST /profile` response. -/
def ProfileResult.status : ProfileResult → Nat
  | .ok _ => 200
  | .selectRoleFirst => 400
  | .phoneInUse => 409
  | .profileExists => 409
  | .saveFailed _ => 500
  | .validationFailed => 422

/-- JSON error string of each `POST /profile` error response. -/
def ProfileResult.errorBody : ProfileResult → Option String
  | .ok _ => none
  | .selectRoleFirst => some "Please select your role first using /select-role"
  | .phoneInUse => some "Phone number already in use"
  | .profileExists => some "Profile already exists"
  | .saveFailed _ => some "Failed to save profile"
  | .validationFailed => some "Validation failed"

/-- The conflict branch of `POST /profile`: store error code `23505` means a
uniqueness violation, distinguished by whether the message mentions the
phone column; every other write error is a 500. -/
def profileWriteError (e : DbError) : ProfileResult :=
  if e.code == "23505" then
    if jsIncludes e.message "phone" then ProfileResult.phoneInUse
    else ProfileResult.profileExists
  else ProfileResult.saveFailed e.message

/-- The field update applied to a `profiles` row by the update branch of
`POST /profile` (the insert branch writes the same fields). -/
def profileUpd (body : ProfileBody) (p : Profile) : Profile :=
  { p with
    name := body.name,
    phone := jsTrim body.phone,
    block := strOrNull body.block,
    flat_no := strOrNull body.flatNo,
    age := natOrNull body.age,
    verified := true }

/-- The `POST /profile` handler: validate the body, require a `users` row
with a role, then upsert the caller's `profiles` row (update when a row with
this `user_id` exists, insert otherwise), always writing `verified = true`.
`write` is the store's answer to the profiles write; on error the conflict
mapping `profileWriteError` decides the response. -/
def postProfile (st : Store) (authId : Nat) (body : ProfileBody)
    (freshId : Nat) (write : DbWrite) : Store × ProfileResult :=
  if !body.valid then (st, ProfileResult.validationFailed)
  else
    match findUserByAuth st authId with
    | none => (st, ProfileResult.selectRoleFirst)
    | some u =>
      if u.role.isNone then (st, ProfileResult.selectRoleFirst)
      else
        match findProfileByUser st u.id with
        | some p0 =>
          match write with
          | DbWrite.err e => (st, profileWriteError e)
          | DbWrite.ok =>
            ({ st with profiles := st.profiles.map (fun p =>
                if p.user_id == u.id then profileUpd body p else p) },
             ProfileResult.ok (profileUpd body p0))
        | none =>
          match write with
          | DbWrite.err e => (st, profileWriteError e)
          | DbWrite.ok =>
            let newP : Profile :=
              { id := freshId, user_id := u.id, name := body.name,
                phone := jsTrim body.phone, block := strOrNull body.block,
                flat_no := strOrNull body.flatNo, age := natOrNull body.age,
                verified := true }
            ({ st with profiles := st.profiles ++ [newP] },
             ProfileResult.ok newP)

/-- C1 — every successful `POST /profile` (insert branch or update branch)
answers with a profile row carrying `verified = true` for the caller, and in
the resulting store every `profiles` row owned by the caller has
`verified = true`, with at least one such row present. -/
theorem postProfile_sets_verified (st : Store) (authId freshId : Nat)
    (body : ProfileBody) (u : User)
    (hv : body.valid = true)
    (hu : findUserByAuth st authId = some u)
    (hrole : u.role.isSome = true) :
    (∃ p, (postProfile st authId body freshId DbWrite.ok).2 =
        ProfileResult.ok p ∧ p.verified = true ∧ p.user_id = u.id) ∧
    (∀ q ∈ (postProfile st authId body freshId DbWrite.ok).1.profiles,
      q.user_id = u.id → q.verified = true) ∧
    (∃ q ∈ (postProfile st authId body freshId DbWrite.ok).1.profiles,
      q.user_id = u.id) := by
  have hnn : u.role.isNone = false := by
    cases h : u.role <;> simp_all
  unfold postProfile
  rw [hu, hv]
  simp only [Bool.not_true, Bool.false_eq_true, if_false, hnn, if_neg]
  cases hp : findProfileByUser st u.id with
  | some p0 =>
      have hp0mem : p0 ∈ st.profiles := List.mem_of_find?_eq_some hp
      have hp0uid : p0.user_id = u.id := by
        have := List.find?_some hp
        simpa using this
      refine ⟨⟨profileUpd body p0, rfl, rfl, hp0uid⟩, ?_, ?_⟩
      · intro q hq hqid
        rcases List.mem_map.mp hq with ⟨r, hr, hrq⟩
        by_cases hrid : r.user_id = u.id
        · simp only [hrid, beq_self_eq_true, if_pos] at hrq
          subst hrq
          rfl
        · simp [hrid] at hrq
          subst hrq
          exact absurd hqid hrid
      · refine ⟨profileUpd body p0, ?_, hp0uid⟩
        have := List.mem_map_of_mem
          (fun p => if p.user_id == u.id then profileUpd body p else p) hp0mem
        simpa [hp0uid] using this
  | none =>
      have hnone : ∀ q ∈ st.profiles, q.user_id ≠ u.id := by
        intro q hq
        have := List.find?_eq_none.mp hp q hq
        simpa using this
      refine ⟨⟨_, rfl, rfl, rfl⟩, ?_, ?_⟩
      · intro q hq hqid
        rcases List.mem_append.mp hq with h | h
        · exact absurd hqid (hnone q h)
        · simp only [List.mem_singleton] at h
          subst h
          rfl
      · exact ⟨_, List.mem_append.mpr (Or.inr (List.mem_singleton.mpr rfl)), rfl⟩

/-- Concrete store for the C1 witness: one user with a role and no profile
yet (insert branch). -/
def stC1 : Store :=
  { users := [{ id := 1, auth_id := 100, role := some Role.RESIDENT }],
    profiles := [], worker_profiles := [], service_posts := [],
    requirements := [] }

/-- Concrete request body used by the C1 and C4 witnesses. -/
def bodyC1 : ProfileBody :=
  { name := "Asha", phone := "9876543210", block := some "J",
    flatNo := none, age := some 30 }

/-- Witness for C1: on `stC1` the insert branch runs and the stored and
returned profile rows are verified. -/
theorem postProfile_sets_verified_witness :
    bodyC1.valid = true ∧
    ((∃ p, (postProfile stC1 100 bodyC1 7 DbWrite.ok).2 =
        ProfileResult.ok p ∧ p.verified = true ∧ p.user_id = 1) ∧
    (∀ q ∈ (postProfile stC1 100 bodyC1 7 DbWrite.ok).1.profiles,
      q.user_id = 1 → q.verified = true) ∧
    (∃ q ∈ (postProfile stC1 100 bodyC1 7 DbWrite.ok).1.profiles,
      q.user_id = 1)) := by
  refine ⟨by decide, ?_⟩
  exact postProfile_sets_verified stC1 100 7 bodyC1
    { id := 1, auth_id := 100, role := some Role.RESIDENT }
    (by decide) (by decide) (by decide)

/-- C4 — when the profiles write fails, `POST /profile` leaves the store
unchanged and maps the error: code `23505` with a message mentioning
`phone` gives 409 "Phone number already in use"; code `23505` otherwise
gives 409 "Profile already exists"; any other code gives 500. -/
theorem postProfile_conflict_mapping (st : Store) (authId freshId : Nat)
    (body : ProfileBody) (u : User) (e : DbError)
    (hv : body.valid = true)
    (hu : findUserByAuth st authId = some u)
    (hrole : u.role.isSome = true) :
    ((postProfile st authId body freshId (DbWrite.err e)).1 = st) ∧
    (e.code = "23505" → jsIncludes e.message "phone" = true →
      (postProfile st authId body freshId (DbWrite.err e)).2 =
        ProfileResult.phoneInUse ∧
      ProfileResult.phoneInUse.status = 409 ∧
      ProfileResult.phoneInUse.errorBody = some "Phone number already in use") ∧
    (e.code = "23505" → jsIncludes e.message "phone" = false →
      (postProfile st authId body freshId (DbWrite.err e)).2 =
        ProfileResult.profileExists ∧
      ProfileResult.profileExists.status = 409 ∧
      ProfileResult.profileExists.errorBody = some "Profile already exists") ∧
    (e.code ≠ "23505" →
      (postProfile st authId body freshId (DbWrite.err e)).2 =
        ProfileResult.saveFailed e.message ∧
      (ProfileResult.saveFailed e.message).status = 500) := by
  have hnn : u.role.isNone = false := by
    cases h : u.role <;> simp_all
  have hmain : postProfile st authId body freshId (DbWrite.err e) =
      (st, profileWriteError e) := by
    unfold postProfile
    rw [hu, hv]
    simp only [Bool.not_true, Bool.false_eq_true, if_false, hnn, if_neg]
    cases hp : findProfileByUser st u.id <;> rfl
  refine ⟨by rw [hmain], ?_, ?_, ?_⟩
  · intro hc hph
    rw [hmain]
    exact ⟨by simp [profileWriteError, hc, hph], rfl, rfl⟩
  · intro hc hph
    rw [hmain]
    exact ⟨by simp [profileWriteError, hc, hph], rfl, rfl⟩
  · intro hc
    rw [hmain]
    refine ⟨by simp [profileWriteError, hc], rfl⟩

/-- Witness for C4: a phone-column uniqueness violation on a concrete store
yields the distinguishable 409. -/
theorem postProfile_conflict_mapping_witness :
    (postProfile stC1 100 bodyC1 7 (DbWrite.err
        { code := "23505",
          message := "duplicate key value violates unique constraint profiles_phone_key" })).1
      = stC1 ∧
    (postProfile stC1 100 bodyC1 7 (DbWrite.err
        { code := "23505",
          message := "duplicate key value violates unique constraint profiles_phone_key" })).2
      = ProfileResult.phoneInUse := by
  have h := postProfile_conflict_mapping stC1 100 7 bodyC1
    { id := 1, auth_id := 100, role := some Role.RESIDENT }
    { code := "23505",
      message := "duplicate key value violates unique constraint profiles_phone_key" }
    (by decide) (by decide) (by decide)
  exact ⟨h.1, (h.2.1 rfl (by decide)).1⟩

/-! ### Service posts: view join, POST /services, GET /services -/

/-- The `auth_id` a `service_posts_view` row carries for a post: the view
inner-joins `service_posts → worker_profiles → users`, so it is defined only
when both joins succeed. -/
def postAuthId (st : Store) (p : ServicePost) : Option Nat :=
  (st.worker_profiles.find? (fun wp => wp.id == p.worker_id)).bind (fun wp =>
    (st.users.find? (fun u => u.id == wp.user_id)).map (fun u => u.auth_id))

/-- `from('service_posts_view').select(...).eq('id', sid).eq('auth_id', authId)`:
the ownership lookup used by toggle and delete. `sid` is `Option` because the
delete handler can pass JS `undefined`, which matches no row. -/
def findOwnedPostView (st : Store) (sid : Option Nat) (authId : Nat) :
    Option ServicePost :=
  match sid with
  | none => none
  | some i =>
      st.service_posts.find? (fun p =>
        p.id == i && postAuthId st p == some authId)

/-- Request body of `POST /services` (camelCase fields, as in the zod schema). -/
structure ServicePostBody where
  title : String
  cuisine : Option Cuisine
  price : Nat
  serviceArea : Option String
  availableTiming : Option String
  description : Option String
  timeSlots : Option String
  deriving DecidableEq

/-- The zod `ServicePostBody` schema: `title` nonempty, `price ≥ 1`. -/
def ServicePostBody.valid (b : ServicePostBody) : Bool :=
  decide (1 ≤ b.title.length) && decide (1 ≤ b.price)

/-- Responses of the `POST /services` handler. -/
inductive ServiceCreateResult
  | ok (p : ServicePost)
  | onlyWorkers
  | completeWorkerProfileFirst
  | createFailed (msg : String)
  | validationFailed
  deriving DecidableEq

/-- HTTP status of each `POST /services` response. -/
def ServiceCreateResult.status : ServiceCreateResult → Nat
  | .ok _ => 200
  | .onlyWorkers => 403
  | .completeWorkerProfileFirst => 400
  | .createFailed _ => 500
  | .validationFailed => 422

/-- The `service_posts` row built by the insert of `POST /services`. The
stored `cuisine` passes through (`parsed.data.cuisine || null`: an enum
string is never falsy); the optional strings collapse through `|| null`;
`is_active` and `created_at` take the store's defaults (`true`, now). -/
def mkServicePost (body : ServicePostBody) (wpId freshId now : Nat) :
    ServicePost :=
  { id := freshId, worker_id := wpId, title := body.title,
    cuisine := body.cuisine, price := body.price,
    service_area := strOrNull body.serviceArea,
    available_timing := strOrNull body.availableTiming,
    description := strOrNull body.description,
    time_slots := strOrNull body.timeSlots,
    is_active := true, created_at := now }

/-- The `POST /services` handler: validate, require `role = WORKER` (403),
require an existing `worker_profiles` row for the caller (400), then insert
a `service_posts` row referencing that worker profile's id. -/
def postService (st : Store) (authId : Nat) (body : ServicePostBody)
    (freshId now : Nat) (write : DbWrite) : Store × ServiceCreateResult :=
  if !body.valid then (st, ServiceCreateResult.validationFailed)
  else
    match findUserByAuth st authId with
    | none => (st, ServiceCreateResult.onlyWorkers)
    | some u =>
      if u.role == some Role.WORKER then
        match findWorkerProfileByUser st u.id with
        | none => (st, ServiceCreateResult.completeWorkerProfileFirst)
        | some wp =>
          match write with
          | DbWrite.err e => (st, ServiceCreateResult.createFailed e.message)
          | DbWrite.ok =>
            let p := mkServicePost body wp.id freshId now
            ({ st with service_posts := st.service_posts ++ [p] },
             ServiceCreateResult.ok p)
      else (st, ServiceCreateResult.onlyWorkers)

/-- C3 — `POST /services` gates: a caller whose role is not WORKER gets 403;
a WORKER with no worker profile gets the 400 precondition error and the
store is unchanged; a WORKER with a worker profile gets a successful insert
of a post referencing that worker profile's id. -/
theorem postService_gates (st : Store) (authId freshId now : Nat)
    (body : ServicePostBody) (hv : body.valid = true) :
    (findUserByAuth st authId = none →
      postService st authId body freshId now DbWrite.ok =
        (st, ServiceCreateResult.onlyWorkers) ∧
      ServiceCreateResult.onlyWorkers.status = 403) ∧
    (∀ u, findUserByAuth st authId = some u → u.role ≠ some Role.WORKER →
      postService st authId body freshId now DbWrite.ok =
        (st, ServiceCreateResult.onlyWorkers) ∧
      ServiceCreateResult.onlyWorkers.status = 403) ∧
    (∀ u, findUserByAuth st authId = some u → u.role = some Role.WORKER →
      findWorkerProfileByUser st u.id = none →
      postService st authId body freshId now DbWrite.ok =
        (st, ServiceCreateResult.completeWorkerProfileFirst) ∧
      ServiceCreateResult.completeWorkerProfileFirst.status = 400) ∧
    (∀ u wp, findUserByAuth st authId = some u → u.role = some Role.WORKER →
      findWorkerProfileByUser st u.id = some wp →
      ∃ p, postService st authId body freshId now DbWrite.ok =
        ({ st with service_posts := st.service_posts ++ [p] },
         ServiceCreateResult.ok p) ∧
        p.worker_id = wp.id) := by
  refine ⟨?_, ?_, ?_, ?_⟩
  · intro hnone
    unfold postService
    rw [hv, hnone]
    exact ⟨rfl, rfl⟩
  · intro u hu hne
    have hcond : (u.role == some Role.WORKER) = false := by
      simpa using hne
    constructor
    · unfold postService
      rw [hv, hu]
      simp [hcond]
    · rfl
  · intro u hu hrole hwp
    have hcond : (u.role == some Role.WORKER) = true := by
      simp [hrole]
    constructor
    · unfold postService
      rw [hv, hu]
      simp [hcond, hwp]
    · rfl
  · intro u wp hu hrole hwp
    have hcond : (u.role == some Role.WORKER) = true := by
      simp [hrole]
    refine ⟨mkServicePost body wp.id freshId now, ?_, rfl⟩
    unfold postService
    rw [hv, hu]
    simp [hcond, hwp]

/-- Worker-profile row used by the C3 witness. -/
def wpC3 : WorkerProfile :=
  { id := 3, user_id := 2, worker_type := WorkerType.COOK,
    cuisine := some Cuisine.NORTH, experience_yrs := 4, charges := 500,
    long_term_offer := none, time_slots := none }

/-- Concrete store for the C3 witness: a WORKER with a worker profile. -/
def stC3 : Store :=
  { users := [{ id := 2, auth_id := 200, role := some Role.WORKER }],
    profiles := [], worker_profiles := [wpC3], service_posts := [],
    requirements := [] }

/-- Concrete request body used by the C3 witness. -/
def bodyC3 : ServicePostBody :=
  { title := "North Indian meals", cuisine := some Cuisine.NORTH, price := 300,
    serviceArea := some "Block J", availableTiming := none,
    description := none, timeSlots := none }

/-- Witness for C3: on `stC3` the same request is rejected 400 when the
worker profile is removed and succeeds (referencing worker profile id 3)
when it is present. -/
theorem postService_gates_witness :
    (postService { stC3 with worker_profiles := [] } 200 bodyC3 9 50 DbWrite.ok =
      ({ stC3 with worker_profiles := [] },
        ServiceCreateResult.completeWorkerProfileFirst)) ∧
    (∃ p, postService stC3 200 bodyC3 9 50 DbWrite.ok =
        ({ stC3 with service_posts := stC3.service_posts ++ [p] },
         ServiceCreateResult.ok p) ∧
      p.worker_id = 3) := by
  constructor
  · exact ((postService_gates { stC3 with worker_profiles := [] } 200 9 50 bodyC3
      (by decide)).2.2.1
      { id := 2, auth_id := 200, role := some Role.WORKER }
      (by decide) (by decide) (by decide)).1
  · exact (postService_gates stC3 200 9 50 bodyC3 (by decide)).2.2.2
      { id := 2, auth_id := 200, role := some Role.WORKER } wpC3
      (by decide) (by decide) (by decide)

/-- `GET /services`: read `service_posts_view` (posts whose joins to
`worker_profiles` and `users` succeed), keep `is_active = true`, order by
`created_at` descending. -/
def getServices (st : Store) : List ServicePost :=
  ((st.service_posts.filter (fun p => (postAuthId st p).isSome)).filter
      (fun p => p.is_active)).mergeSort
    (fun a b => decide (b.created_at ≤ a.created_at))

/-- C6 — under referential integrity (every post's view joins succeed, as
the schema's foreign keys guarantee), `GET /services` returns exactly the
posts whose active flag is true — never an inactive one — ordered by
creation time newest first. -/
theorem getServices_active_sorted (st : Store)
    (hjoin : ∀ p ∈ st.service_posts, (postAuthId st p).isSome = true) :
    (∀ p, p ∈ getServices st ↔ p ∈ st.service_posts ∧ p.is_active = true) ∧
    (getServices st).Pairwise (fun a b => b.created_at ≤ a.created_at) := by
  constructor
  · intro p
    unfold getServices
    rw [List.mem_mergeSort, List.mem_filter, List.mem_filter]
    constructor
    · rintro ⟨⟨hmem, _⟩, hact⟩
      exact ⟨hmem, hact⟩
    · rintro ⟨hmem, hact⟩
      exact ⟨⟨hmem, hjoin p hmem⟩, hact⟩
  · unfold getServices
    have h := @List.sorted_mergeSort ServicePost
      (fun a b => decide (b.created_at ≤ a.created_at))
      (fun a b c hab hbc => by simp_all; omega)
      (fun a b => by simp [Nat.le_total])
      ((st.service_posts.filter (fun p => (postAuthId st p).isSome)).filter
        (fun p => p.is_active))
    exact h.imp (fun hab => by simpa using hab)

/-- Active post (newest) in the C6 witness store. -/
def pC6a : ServicePost :=
  { id := 20, worker_id := 3, title := "meals", cuisine := none, price := 100,
    service_area := none, available_timing := none, description := none,
    time_slots := none, is_active := true, created_at := 30 }

/-- Inactive post in the C6 witness store. -/
def pC6b : ServicePost :=
  { id := 21, worker_id := 3, title := "cleaning", cuisine := none, price := 80,
    service_area := none, available_timing := none, description := none,
    time_slots := none, is_active := false, created_at := 20 }

/-- Active post (oldest) in the C6 witness store. -/
def pC6c : ServicePost :=
  { id := 22, worker_id := 3, title := "tiffin", cuisine := none, price := 60,
    service_area := none, available_timing := none, description := none,
    time_slots := none, is_active := true, created_at := 10 }

/-- Concrete store for the C6 witness. -/
def stC6 : Store :=
  { users := [{ id := 2, auth_id := 200, role := some Role.WORKER }],
    profiles := [], worker_profiles := [wpC3],
    service_posts := [pC6c, pC6a, pC6b], requirements := [] }

/-- Witness for C6 on a concrete store with active and inactive posts. -/
theorem getServices_active_sorted_witness :
    (∀ p ∈ stC6.service_posts, (postAuthId stC6 p).isSome = true) ∧
    ((∀ p, p ∈ getServices stC6 ↔ p ∈ stC6.service_posts ∧ p.is_active = true) ∧
     (getServices stC6).Pairwise (fun a b => b.created_at ≤ a.created_at)) :=
  ⟨by decide, getServices_active_sorted stC6 (by decide)⟩

/-! ### PATCH /services/:id/toggle -/

/-- Responses of the toggle handler. -/
inductive ToggleResult
  | ok (p : ServicePost)
  | notFound
  | updateFailed (msg : String)
  deriving DecidableEq

/-- HTTP status of each toggle response. -/
def ToggleResult.status : ToggleResult → Nat
  | .ok _ => 200
  | .notFound => 404
  | .updateFailed _ => 500

/-- The `PATCH /services/:id/toggle` handler: look the post up in
`service_posts_view` by id and the caller's `auth_id` simultaneously (404
when absent), then update `service_posts` rows with this id to the negation
of the fetched row's `is_active`, returning the updated row. -/
def toggleService (st : Store) (authId idVal : Nat) (write : DbWrite) :
    Store × ToggleResult :=
  match findOwnedPostView st (some idVal) authId with
  | none => (st, ToggleResult.notFound)
  | some svc =>
    match write with
    | DbWrite.err e => (st, ToggleResult.updateFailed e.message)
    | DbWrite.ok =>
      ({ st with service_posts := st.service_posts.map (fun p =>
          if p.id == idVal then { p with is_active := !svc.is_active } else p) },
       ToggleResult.ok { svc with is_active := !svc.is_active })

/-- In a list of posts with pairwise-distinct ids, two members with the
same id are the same post. -/
theorem pairwise_post_id_unique :
    ∀ {l : List ServicePost}, l.Pairwise (fun a b => a.id ≠ b.id) →
      ∀ {p q : ServicePost}, p ∈ l → q ∈ l → p.id = q.id → p = q := by
  intro l
  induction l with
  | nil => intro _ p q hp; simp at hp
  | cons x xs ih =>
      intro h p q hp hq hid
      rcases List.pairwise_cons.mp h with ⟨hx, hxs⟩
      rcases List.mem_cons.mp hp with hp1 | hp1
      · rcases List.mem_cons.mp hq with hq1 | hq1
        · rw [hp1, hq1]
        · rw [hp1] at hid ⊢
          exact absurd hid (hx q hq1)
      · rcases List.mem_cons.mp hq with hq1 | hq1
        · rw [hq1] at hid ⊢
          exact absurd hid.symm (hx p hp1)
        · exact ih hxs hp1 hq1 hid

/-- C10 — a successful toggle by the owner changes only the targeted post's
`is_active` (negating it): the response carries the fetched row with
`is_active` negated, every other table is untouched, the post count is
unchanged, every post with a different id survives unchanged, the targeted
post survives with only `is_active` negated, and nothing else appears. -/
theorem toggleService_frame (st : Store) (authId idVal : Nat)
    (svc : ServicePost)
    (hids : st.service_posts.Pairwise (fun a b => a.id ≠ b.id))
    (hf : findOwnedPostView st (some idVal) authId = some svc) :
    ((toggleService st authId idVal DbWrite.ok).2 =
        ToggleResult.ok { svc with is_active := !svc.is_active }) ∧
    ((toggleService st authId idVal DbWrite.ok).1.users = st.users) ∧
    ((toggleService st authId idVal DbWrite.ok).1.profiles = st.profiles) ∧
    ((toggleService st authId idVal DbWrite.ok).1.worker_profiles =
        st.worker_profiles) ∧
    ((toggleService st authId idVal DbWrite.ok).1.requirements =
        st.requirements) ∧
    ((toggleService st authId idVal DbWrite.ok).1.service_posts.length =
        st.service_posts.length) ∧
    (∀ p ∈ st.service_posts, p.id ≠ idVal →
        p ∈ (toggleService st authId idVal DbWrite.ok).1.service_posts) ∧
    (∀ p ∈ st.service_posts, p.id = idVal → p = svc ∧
        { p with is_active := !p.is_active } ∈
          (toggleService st authId idVal DbWrite.ok).1.service_posts) ∧
    (∀ q ∈ (toggleService st authId idVal DbWrite.ok).1.service_posts,
        q ∈ st.service_posts ∨
          q = { svc with is_active := !svc.is_active }) := by
  have hf' : st.service_posts.find? (fun p =>
      p.id == idVal && postAuthId st p == some authId) = some svc := hf
  have hsvc_mem : svc ∈ st.service_posts := List.mem_of_find?_eq_some hf'
  have hsvc_id : svc.id = idVal := by
    have := List.find?_some hf'
    simp at this
    exact this.1
  have hout : toggleService st authId idVal DbWrite.ok =
      ({ st with service_posts := st.service_posts.map (fun p =>
          if p.id == idVal then { p with is_active := !svc.is_active } else p) },
       ToggleResult.ok { svc with is_active := !svc.is_active }) := by
    unfold toggleService
    rw [hf]
  rw [hout]
  refine ⟨rfl, rfl, rfl, rfl, rfl, by simp, ?_, ?_, ?_⟩
  · intro p hp hne
    have := List.mem_map_of_mem
      (fun p => if p.id == idVal then { p with is_active := !svc.is_active } else p)
      hp
    simpa [hne] using this
  · intro p hp hpid
    have hpsvc : p = svc :=
      pairwise_post_id_unique hids hp hsvc_mem (by rw [hpid, hsvc_id])
    subst hpsvc
    refine ⟨rfl, ?_⟩
    have := List.mem_map_of_mem
      (fun q => if q.id == idVal then { q with is_active := !p.is_active } else q)
      hp
    simpa [hpid] using this
  · intro q hq
    rcases List.mem_map.mp hq with ⟨r, hr, hrq⟩
    by_cases hrid : r.id = idVal
    · right
      have hrsvc : r = svc :=
        pairwise_post_id_unique hids hr hsvc_mem (by rw [hrid, hsvc_id])
      subst hrsvc
      simp [hrid] at hrq
      rw [← hrq, hrid]
    · left
      simp [hrid] at hrq
      rwa [← hrq]

/-- Concrete store for the C10 witness: a worker owning two posts. -/
def stC10 : Store :=
  { users := [{ id := 2, auth_id := 200, role := some Role.WORKER }],
    profiles := [], worker_profiles := [wpC3],
    service_posts := [pC6a, pC6c], requirements := [] }

/-- Witness for C10: toggling post 20 on `stC10`. -/
theorem toggleService_frame_witness :
    ((toggleService stC10 200 20 DbWrite.ok).2 =
        ToggleResult.ok { pC6a with is_active := !pC6a.is_active }) ∧
    ((toggleService stC10 200 20 DbWrite.ok).1.users = stC10.users) ∧
    ((toggleService stC10 200 20 DbWrite.ok).1.service_posts.length =
        stC10.service_posts.length) ∧
    (∀ p ∈ stC10.service_posts, p.id ≠ 20 →
        p ∈ (toggleService stC10 200 20 DbWrite.ok).1.service_posts) := by
  have h := toggleService_frame stC10 200 20 pC6a (by decide) (by decide)
  exact ⟨h.1, h.2.1, h.2.2.2.2.2.1, h.2.2.2.2.2.2.1⟩

/-! ### DELETE /services/:id -/

/-- Responses of the delete-service handler. -/
inductive DeleteServiceResult
  | success
  | notFound
  | deleteFailed (msg : String)
  deriving DecidableEq

/-- HTTP status of each delete-service response. -/
def DeleteServiceResult.status : DeleteServiceResult → Nat
  | .success => 200
  | .notFound => 404
  | .deleteFailed _ => 500

/-- Reading a key out of `req.params`: JS property access that yields
`undefined` when the key is absent. -/
def reqParamGet (params : List (String × Nat)) (key : String) : Option Nat :=
  (params.find? (fun kv => kv.fst == key)).map (fun kv => kv.snd)

/-- The `DELETE /services/:id` handler body, exactly as written: it reads
`serviceId` from `req.params` (`const { serviceId } = req.params`), looks
the post up in `service_posts_view` by that value and the caller's
`auth_id` (404 on failure, which `eq('id', undefined)` always is), then
deletes the `service_posts` rows with that id. -/
def deleteServiceHandler (st : Store) (authId : Nat)
    (params : List (String × Nat)) (write : DbWrite) :
    Store × DeleteServiceResult :=
  let serviceId := reqParamGet params "serviceId"
  match findOwnedPostView st serviceId authId with
  | none => (st, DeleteServiceResult.notFound)
  | some _ =>
    match write with
    | DbWrite.err e => (st, DeleteServiceResult.deleteFailed e.message)
    | DbWrite.ok =>
      ({ st with service_posts := st.service_posts.filter (fun p =>
          !(some p.id == serviceId)) },
       DeleteServiceResult.success)

/-- The express route mounts the handler at `/services/:id`, so the params
carry the single key `id` with the path segment's value. -/
def deleteServiceRoute (st : Store) (authId idVal : Nat) (write : DbWrite) :
    Store × DeleteServiceResult :=
  deleteServiceHandler st authId [("id", idVal)] write

/-- C2 (code bug) — because the handler destructures `serviceId` from params
that only carry `id`, the ownership lookup always receives `undefined`:
every `DELETE /services/:id` request answers 404 and deletes nothing, even
when the caller owns the post — on the concrete store `stC10`, owner 200's
post 20 is found by the very ownership query the handler meant to run. -/
theorem deleteService_param_bug :
    (∀ (st : Store) (authId idVal : Nat) (write : DbWrite),
        deleteServiceRoute st authId idVal write =
          (st, DeleteServiceResult.notFound)) ∧
    (findOwnedPostView stC10 (some 20) 200 = some pC6a) ∧
    DeleteServiceResult.notFound.status = 404 := by
  refine ⟨?_, by decide, rfl⟩
  intro st authId idVal write
  have hkey : (("id" : String) == "serviceId") = false := by decide
  unfold deleteServiceRoute deleteServiceHandler reqParamGet
  simp [hkey, List.find?, findOwnedPostView]

/-! ### POST /requirements -/

/-- Request body of `POST /requirements` (camelCase fields, as in the zod
schema; `urgency` already carries the schema's MEDIUM default). -/
structure RequirementBody where
  needType : NeedType
  details : Option String
  preferredTiming : Option String
  preferredPrice : Option Int
  block : Option String
  flatNo : Option String
  urgency : Urgency
  deriving DecidableEq

/-- The zod `RequirementPostBody` schema: only `preferredPrice ≥ 0` is a
real constraint on the fields modelled here. -/
def RequirementBody.valid (b : RequirementBody) : Bool :=
  match b.preferredPrice with
  | some n => decide (0 ≤ n)
  | none => true

/-- Responses of the `POST /requirements` handler. -/
inductive RequirementCreateResult
  | ok (r : Requirement)
  | onlyResidents
  | createFailed (msg : String)
  | validationFailed
  deriving DecidableEq

/-- HTTP status of each `POST /requirements` response. -/
def RequirementCreateResult.status : RequirementCreateResult → Nat
  | .ok _ => 200
  | .onlyResidents => 403
  | .createFailed _ => 500
  | .validationFailed => 422

/-- The `requirements` row built by the insert of `POST /requirements`.
Every optional field goes through `|| null`, so `preferredPrice === 0`
is coalesced to `null` (`0` is falsy in JS); `is_open` and `created_at`
take the store's defaults. -/
def mkRequirement (body : RequirementBody) (ownerId freshId now : Nat) :
    Requirement :=
  { id := freshId, owner_id := ownerId, need_type := body.needType,
    details := strOrNull body.details,
    preferred_timing := strOrNull body.preferredTiming,
    preferred_price := intOrNull body.preferredPrice,
    block := strOrNull body.block, flat_no := strOrNull body.flatNo,
    urgency := body.urgency, is_open := true, created_at := now }

/-- The `POST /requirements` handler: validate, require `role = RESIDENT`
(403), then insert the row. -/
def postRequirement (st : Store) (authId : Nat) (body : RequirementBody)
    (freshId now : Nat) (write : DbWrite) : Store × RequirementCreateResult :=
  if !body.valid then (st, RequirementCreateResult.validationFailed)
  else
    match findUserByAuth st authId with
    | none => (st, RequirementCreateResult.onlyResidents)
    | some u =>
      if u.role == some Role.RESIDENT then
        match write with
        | DbWrite.err e => (st, RequirementCreateResult.createFailed e.message)
        | DbWrite.ok =>
          let r := mkRequirement body u.id freshId now
          ({ st with requirements := st.requirements ++ [r] },
           RequirementCreateResult.ok r)
      else (st, RequirementCreateResult.onlyResidents)

/-- C9 — a `POST /requirements` body with `preferredPrice = 0` passes the
schema (which only requires `preferredPrice ≥ 0`), yet a successful insert
for a RESIDENT stores `null` as the preferred price: the handler's
`preferredPrice || null` coalesces the falsy `0`. -/
theorem postRequirement_zero_price_null (st : Store) (authId freshId now : Nat)
    (body : RequirementBody) (u : User)
    (hprice : body.preferredPrice = some 0)
    (hu : findUserByAuth st authId = some u)
    (hrole : u.role = some Role.RESIDENT) :
    body.valid = true ∧
    postRequirement st authId body freshId now DbWrite.ok =
      ({ st with requirements :=
          st.requirements ++ [mkRequirement body u.id freshId now] },
       RequirementCreateResult.ok (mkRequirement body u.id freshId now)) ∧
    (mkRequirement body u.id freshId now).preferred_price = none := by
  have hv : body.valid = true := by
    unfold RequirementBody.valid
    rw [hprice]
    decide
  have hcond : (u.role == some Role.RESIDENT) = true := by
    simp [hrole]
  refine ⟨hv, ?_, ?_⟩
  · unfold postRequirement
    rw [hv, hu]
    simp [hcond]
  · unfold mkRequirement intOrNull
    rw [hprice]
    simp

/-- Concrete store for the C9 witness: one RESIDENT user. -/
def stC9 : Store :=
  { users := [{ id := 4, auth_id := 400, role := some Role.RESIDENT }],
    profiles := [], worker_profiles := [], service_posts := [],
    requirements := [] }

/-- Concrete body for the C9 witness, with `preferredPrice = 0`. -/
def bodyC9 : RequirementBody :=
  { needType := NeedType.COOK, details := some "daily dinner",
    preferredTiming := none, preferredPrice := some 0, block := none,
    flatNo := none, urgency := Urgency.MEDIUM }

/-- Witness for C9: the zero preferred price validates and is stored as
`null` on the concrete store. -/
theorem postRequirement_zero_price_null_witness :
    bodyC9.valid = true ∧
    postRequirement stC9 400 bodyC9 11 60 DbWrite.ok =
      ({ stC9 with requirements :=
          stC9.requirements ++ [mkRequirement bodyC9 4 11 60] },
       RequirementCreateResult.ok (mkRequirement bodyC9 4 11 60)) ∧
    (mkRequirement bodyC9 4 11 60).preferred_price = none :=
  postRequirement_zero_price_null stC9 400 11 60 bodyC9
    { id := 4, auth_id := 400, role := some Role.RESIDENT }
    (by decide) (by decide) (by decide)

/-! ### Translation module (`src/translation.ts`) -/

/-- The ten supported language codes (`SUPPORTED_LANGUAGES`). -/
inductive Lang
  | en
  | hi
  | ta
  | te
  | kn
  | ml
  | bn
  | mr
  | gu
  | pa
  deriving DecidableEq

/-- Display name of each language code (`SUPPORTED_LANGUAGES` values). -/
def Lang.langName : Lang → String
  | .en => "English"
  | .hi => "Hindi"
  | .ta => "Tamil"
  | .te => "Telugu"
  | .kn => "Kannada"
  | .ml => "Malayalam"
  | .bn => "Bengali"
  | .mr => "Marathi"
  | .gu => "Gujarati"
  | .pa => "Punjabi"

/-- The translation context presets. -/
inductive TransContext
  | service
  | requirement
  | profile
  | general
  deriving DecidableEq

/-- The context-dependent prompt prelude of `translateText`. -/
def contextPromptOf : TransContext → String
  | .service => "This is about cooking/maid services. "
  | .requirement => "This is about household service requirements. "
  | .profile => "This is profile information for a service provider. "
  | .general => ""

/-- The instruction sent to the external model by `translateText`
(whitespace slightly normalised; its content is irrelevant to the theorems,
which treat the external service as an oracle on the prompt). -/
def buildPrompt (ctx : TransContext) (fromLanguage toLanguage : Lang)
    (text : String) : String :=
  contextPromptOf ctx ++ "Translate the following text from " ++
    fromLanguage.langName ++ " to " ++ toLanguage.langName ++ ". \n\n" ++
    "IMPORTANT RULES:\n" ++
    "1. Translate descriptive content, cooking terms, and service descriptions\n" ++
    "2. DO NOT translate: phone numbers, email addresses, prices (Rs), specific addresses (Block/Flat numbers), timestamps, usernames\n" ++
    "3. Keep English words that are commonly understood: \"Block\", \"Flat\", numbers, \"Rs\", \"By:\", phone numbers, time formats\n" ++
    "4. Focus on translating the actual service/requirement description and user-facing labels like \"Priority\", \"Preferred Time\", \"Budget\", \"Location\"\n" ++
    "5. Preserve formatting, emojis, and structure exactly\n" ++
    "6. Translate labels but keep \"Block J Flat 103\" as is\n" ++
    "7. Keep cooking terms, food names, and service-related terminology accurate for Indian context\n\n" ++
    "Only return the translated text, nothing else.\n\n" ++
    "Text to translate: \"" ++ text ++ "\""

/-- A double or single quote, as stripped by
`translatedText.replace(/^["']|["']$/g, '')` (39 is the apostrophe code
point). -/
def isQuoteChar (c : Char) : Bool :=
  c == '"' || c.toNat == 39

/-- Strip one leading and one trailing quote character. -/
def stripEdgeQuotes (s : String) : String :=
  let cs1 :=
    match s.data with
    | c :: rest => if isQuoteChar c then rest else c :: rest
    | [] => []
  let cs2 :=
    match cs1.reverse with
    | c :: rest => if isQuoteChar c then rest.reverse else cs1
    | [] => []
  ⟨cs2⟩

/-- `translateText`: same-language requests return the text unchanged with
no external call; otherwise the external model (an oracle from prompt to
optional response, `none` meaning a thrown error) is called once, its
response trimmed and quote-stripped, and any failure falls back to the
original text. The second component counts external calls. -/
def translateText (svc : String → Option String) (text : String)
    (fromLanguage toLanguage : Lang) (ctx : TransContext) : String × Nat :=
  if fromLanguage = toLanguage then (text, 0)
  else
    match svc (buildPrompt ctx fromLanguage toLanguage text) with
    | some resp => (stripEdgeQuotes (jsTrim resp), 1)
    | none => (text, 1)

/-- C7 — `translateText` with equal source and target language returns the
input text unchanged and performs zero external calls, for every oracle,
text and context. -/
theorem translateText_same_language (svc : String → Option String)
    (text : String) (l : Lang) (ctx : TransContext) :
    translateText svc text l l ctx = (text, 0) := by
  unfold translateText
  simp

/-- `translateBatch`'s chunking: the loop `for (i = 0; i < n; i += 5)`
slicing `texts.slice(i, i + 5)`. -/
def chunk5 : List String → List (List String)
  | [] => []
  | a :: b :: c :: d :: e :: rest => [a, b, c, d, e] :: chunk5 rest
  | l => [l]

/-- `Promise.all` over settled per-item results: all values in order, or
the first rejection. -/
def promiseAll : List (Except String String) → Except String (List String)
  | [] => Except.ok []
  | p :: ps =>
    match p with
    | Except.error e => Except.error e
    | Except.ok x =>
      match promiseAll ps with
      | Except.error e => Except.error e
      | Except.ok xs => Except.ok (x :: xs)

/-- The body of `translateBatch`'s try block: issue the per-item
translation `tr` over each chunk, await the chunk, and append the chunk's
results in order. -/
def runChunks (tr : String → Except String String) :
    List (List String) → Except String (List String)
  | [] => Except.ok []
  | c :: cs =>
    match promiseAll (c.map tr) with
    | Except.error e => Except.error e
    | Except.ok rs =>
      match runChunks tr cs with
      | Except.error e => Except.error e
      | Except.ok rest => Except.ok (rs ++ rest)

/-- The chunked processing of `translateBatch` over chunks of size 5. -/
def translateBatchGo (tr : String → Except String String)
    (texts : List String) : Except String (List String) :=
  runChunks tr (chunk5 texts)

/-- `translateBatch`: the chunked processing, with the catch block
returning the original input list on a batch-level failure. -/
def translateBatch (tr : String → Except String String)
    (texts : List String) : List String :=
  match translateBatchGo tr texts with
  | Except.ok rs => rs
  | Except.error _ => texts

/-- `translateBatch` as called from the route: the per-item translation is
`translateText`, which never rejects (it catches its own errors). -/
def translateBatchRun (svc : String → Option String) (texts : List String)
    (fromLanguage toLanguage : Lang) (ctx : TransContext) : List String :=
  translateBatch
    (fun t => Except.ok (translateText svc t fromLanguage toLanguage ctx).1)
    texts

theorem promiseAll_map_ok (f : String → String) :
    ∀ (l : List String),
      promiseAll (l.map (fun t => Except.ok (f t))) = Except.ok (l.map f)
  | [] => rfl
  | x :: xs => by
      simp [promiseAll, promiseAll_map_ok f xs]

theorem chunk5_flatten : ∀ (l : List String), (chunk5 l).flatten = l
  | [] => by simp [chunk5]
  | [a] => by simp [chunk5]
  | [a, b] => by simp [chunk5]
  | [a, b, c] => by simp [chunk5]
  | [a, b, c, d] => by simp [chunk5]
  | a :: b :: c :: d :: e :: rest => by
      simp [chunk5]
      exact chunk5_flatten rest

theorem runChunks_map_ok (f : String → String) :
    ∀ (cs : List (List String)),
      runChunks (fun t => Except.ok (f t)) cs =
        Except.ok ((cs.map (fun c => c.map f)).flatten)
  | [] => by simp [runChunks]
  | c :: cs => by
      simp [runChunks, promiseAll_map_ok, runChunks_map_ok f cs]

/-- When every per-item translation resolves, the chunked batch is exactly
the elementwise map, in input order. -/
theorem translateBatch_ok_map (f : String → String) (texts : List String) :
    translateBatch (fun t => Except.ok (f t)) texts = texts.map f := by
  unfold translateBatch translateBatchGo
  rw [runChunks_map_ok]
  rw [← List.map_flatten, chunk5_flatten]

/-- C8 — `translateBatch` (as invoked with `translateText` per item)
returns a list of the same length whose i-th element is the translation of
the i-th input, processing chunks of 5 in input order; and whenever the
chunked processing fails at batch level, the original input list is
returned unchanged. -/
theorem translateBatch_order_and_fallback
    (tr : String → Except String String) (texts : List String) (err : String)
    (hfail : translateBatchGo tr texts = Except.error err) :
    (∀ (svc : String → Option String) (fromL toL : Lang) (ctx : TransContext)
        (ts : List String),
      translateBatchRun svc ts fromL toL ctx =
        ts.map (fun t => (translateText svc t fromL toL ctx).1) ∧
      (translateBatchRun svc ts fromL toL ctx).length = ts.length) ∧
    translateBatch tr texts = texts := by
  constructor
  · intro svc fromL toL ctx ts
    constructor
    · exact translateBatch_ok_map _ ts
    · rw [translateBatchRun, translateBatch_ok_map]
      simp
  · unfold translateBatch
    rw [hfail]

/-- Witness for C8: a concrete failing oracle makes the batch fall back to
the original inputs. -/
theorem translateBatch_order_and_fallback_witness :
    (translateBatchGo (fun _ => Except.error "quota") ["a", "b"] =
        Except.error "quota") ∧
    translateBatch (fun _ => Except.error "quota") ["a", "b"] = ["a", "b"] := by
  refine ⟨rfl, ?_⟩
  exact (translateBatch_order_and_fallback (fun _ => Except.error "quota")
    ["a", "b"] "quota" rfl).2

end Cookmate
